import Mathlib

/-!
# Verification of `main.py` — a forwarding HTTP proxy with CONNECT tunneling

Shallow embedding of the per-connection logic of `src/main.py`:

* `handle_client` (the Connection Dispatcher with its Tunnel and Forward
  handler branches) becomes `handleClient : Env → List Ev × Bool`, mapping a
  scripted I/O environment to the ordered trace of externally visible events
  together with a flag recording whether an unhandled Python exception escaped
  the coroutine (`true` = the final `client_writer.close()` at line 72 was
  skipped because an exception propagated past it).
* `pipe` (the Byte Relay) becomes `pipeRun` / `pipeResult` over an explicit
  list of successful reads plus an optional induced-fault position, and
  `pipeLoop` models the chunking that `reader.read(4096)` performs on a flat
  byte source under an arbitrary read-size schedule.
* Python library operations used by the code are modelled byte- and
  character-faithfully for the ASCII inputs the protocol deals in: `str.strip`,
  `str.split(' ', 2)`, `str.upper`, `int(...)`, `bytes.lower`,
  `bytes.startswith`, and `urllib.parse.urlsplit` / `.hostname` / `.port` /
  `urlunsplit` (following the CPython algorithm; Unicode-only refinements such
  as NFKC netloc checks, non-ASCII case mapping and non-UTF-8 decode errors
  are outside the ASCII scope of the claims and are not modelled).

Bytes are represented as `List Nat` (each entry `< 256` in all uses); `enc`
encodes the ASCII strings the program writes.
-/

namespace Proxy

/-- ASCII/byte encoding of a string: one byte per character.  All strings the
program reads or writes in the verified claims are ASCII, where this agrees
with Python's UTF-8 `str.encode`. -/
def enc (s : String) : List Nat :=
  s.data.map Char.toNat

/-- The two-byte header-block terminator `b"\r\n"`. -/
def crlf : List Nat := enc "\r\n"

/-- `bytes.lower` on one byte: ASCII `A`–`Z` map to `a`–`z`, all other byte
values unchanged (CPython `bytes.lower` touches only `0x41`–`0x5A`). -/
def byteLower (b : Nat) : Nat :=
  if 65 ≤ b ∧ b ≤ 90 then b + 32 else b

/-- `bs.startswith(pre)` on byte strings. -/
def startsWithBytes (pre bs : List Nat) : Bool :=
  bs.take pre.length = pre

/-- `header.lower().startswith(b"proxy-connection:")` — the filter condition
of the header-forwarding loop (`main.py` line 56). -/
def isProxyConnectionHeader (h : List Nat) : Bool :=
  startsWithBytes (enc "proxy-connection:") (h.map byteLower)

/-- The six characters `str.strip()` removes at the ends of an ASCII string
(space, tab, line feed, carriage return, vertical tab, form feed). -/
def isPyWs (c : Char) : Bool :=
  c = ' ' ∨ c = '\t' ∨ c = '\n' ∨ c = '\r' ∨ c = Char.ofNat 11 ∨ c = Char.ofNat 12

/-- `str.strip()` on a character list: drop whitespace from both ends. -/
def pyStrip (cs : List Char) : List Char :=
  ((cs.dropWhile isPyWs).reverse.dropWhile isPyWs).reverse

/-- Split a character list at its first space: `some (before, after)` when a
space occurs, `none` otherwise.  One step of `str.split(' ', _)`. -/
def splitOnceSp : List Char → Option (List Char × List Char)
  | [] => none
  | c :: cs =>
    if c = ' ' then some ([], cs)
    else (splitOnceSp cs).map (fun p => (c :: p.1, p.2))

/-- `s.split(' ', 2)`: at most two splits at literal single spaces, runs of
spaces producing empty fields, the remainder after the second space kept
whole. -/
def pySplitSp2 (cs : List Char) : List (List Char) :=
  match splitOnceSp cs with
  | none => [cs]
  | some (a, rest) =>
    match splitOnceSp rest with
    | none => [a, rest]
    | some (b, rest2) => [a, b, rest2]

/-- Value of a digit/underscore tail in `int(...)`: an underscore must sit
between two digits, and every other character must be a decimal digit. -/
def pyNatTail (acc : Nat) : List Char → Option Nat
  | [] => some acc
  | '_' :: c :: cs =>
    if c.isDigit then pyNatTail (acc * 10 + (c.toNat - 48)) cs else none
  | '_' :: [] => none
  | c :: cs =>
    if c = '_' then none
    else if c.isDigit then pyNatTail (acc * 10 + (c.toNat - 48)) cs else none

/-- Digit-run acceptor of `int(...)`: non-empty, starts with a digit. -/
def pyNatOfChars : List Char → Option Nat
  | [] => none
  | c :: cs => if c.isDigit then pyNatTail (c.toNat - 48) cs else none

/-- Python `int(s)` on ASCII text: surrounding whitespace stripped, optional
single sign, then digits with single interior underscores; `none` models the
`ValueError` raise. -/
def pyIntOfChars (cs : List Char) : Option Int :=
  match pyStrip cs with
  | '+' :: rest => (pyNatOfChars rest).map Int.ofNat
  | '-' :: rest => (pyNatOfChars rest).map (fun n => -(Int.ofNat n))
  | rest => (pyNatOfChars rest).map Int.ofNat

/-- `int(port)` at `main.py` line 25. -/
def pyInt (s : String) : Option Int :=
  pyIntOfChars s.data

/-- ASCII `str.upper` on one character (`a`–`z` to `A`–`Z`); sufficient to
decide `method.upper() == 'CONNECT'` for any method (no non-ASCII character
uppercases into the letters of `CONNECT`). -/
def asciiUpperChar (c : Char) : Char :=
  if 'a' ≤ c ∧ c ≤ 'z' then Char.ofNat (c.toNat - 32) else c

/-- ASCII `str.upper`. -/
def asciiUpper (s : String) : String :=
  ⟨s.data.map asciiUpperChar⟩

/-- ASCII `str.lower` on one character, for `urlsplit`'s scheme/hostname
lowercasing. -/
def asciiLowerChar (c : Char) : Char :=
  if 'A' ≤ c ∧ c ≤ 'Z' then Char.ofNat (c.toNat + 32) else c

/-- `method, path, version = request_line.decode().strip().split(' ', 2)`
(`main.py` line 12): `none` models the `ValueError` of unpacking fewer than
three fields. -/
def parseRequestLine (s : String) : Option (String × String × String) :=
  match pySplitSp2 (pyStrip s.data) with
  | [a, b, c] => some (⟨a⟩, ⟨b⟩, ⟨c⟩)
  | _ => none

/-- The header-reading loop (`main.py` lines 15–20): collect successive
`readline` results until end-of-stream (empty bytes) or the bare `b"\r\n"`
terminator, excluding that terminator. -/
def readHeaders (stream : List (List Nat)) : List (List Nat) :=
  stream.takeWhile (fun l => !(l = [] ∨ l = crlf))

/-- Split a character list at the first occurrence of `sep`: `some (before,
after)` when present, `none` otherwise (`str.partition` / `split(sep, 1)`). -/
def splitFirst (sep : Char) : List Char → Option (List Char × List Char)
  | [] => none
  | c :: cs =>
    if c = sep then some ([], cs)
    else (splitFirst sep cs).map (fun p => (c :: p.1, p.2))

/-- `host, port = path.split(':', 1)` then `port = int(port)` (`main.py`
lines 24–25): `none` models the `ValueError` raise of either line. -/
def connectTarget (path : String) : Option (String × Int) :=
  match splitFirst ':' path.data with
  | none => none
  | some (h, rest) =>
    match pyIntOfChars rest with
    | none => none
    | some n => some (⟨h⟩, n)

/-- `partition(sep)` on a character list: `(before, found, after)`, with
`before = cs` and `after = []` when `sep` does not occur. -/
def partitionAt (sep : Char) (cs : List Char) : List Char × Bool × List Char :=
  match splitFirst sep cs with
  | none => (cs, false, [])
  | some (a, b) => (a, true, b)

/-- `netloc.rpartition('@')[2]`: the segment after the last `@`, or the whole
list when `@` does not occur (strips URL userinfo). -/
def afterLastAt (cs : List Char) : List Char :=
  (cs.reverse.takeWhile (fun c => c ≠ '@')).reverse

/-- Result record of `urllib.parse.urlsplit`. -/
structure UrlSplitResult where
  scheme : List Char
  netloc : List Char
  path : List Char
  query : List Char
  fragment : List Char
deriving DecidableEq, Repr

/-- A character of CPython's `scheme_chars` (letters, digits, `+`, `-`, `.`). -/
def isSchemeChar (c : Char) : Bool :=
  ('A' ≤ c ∧ c ≤ 'Z') ∨ ('a' ≤ c ∧ c ≤ 'z') ∨ ('0' ≤ c ∧ c ≤ '9') ∨
    c = '+' ∨ c = '-' ∨ c = '.'

/-- ASCII letter test (`c.isascii() and c.isalpha()`). -/
def isAsciiAlpha (c : Char) : Bool :=
  ('A' ≤ c ∧ c ≤ 'Z') ∨ ('a' ≤ c ∧ c ≤ 'z')

/-- WHATWG C0-control-or-space class, stripped from the front of a URL. -/
def c0ControlOrSpace (c : Char) : Bool :=
  c.toNat ≤ 32

/-- The unsafe URL bytes CPython removes everywhere (`\t`, `\r`, `\n`). -/
def isUnsafeUrlChar (c : Char) : Bool :=
  c = '\t' ∨ c = '\r' ∨ c = '\n'

/-- `urllib.parse.urlsplit` (`main.py` line 43), after the CPython algorithm:
strip leading C0/space characters, remove tab/CR/LF, detect a scheme (first
`:` with a letter-led run of scheme characters before it, lowercased), peel a
`//`-led netloc up to the first `/`, `?` or `#`, then split off fragment and
query.  `Except.error` models the `ValueError("Invalid IPv6 URL")` raise on a
mismatched bracket in the netloc (newer CPython additionally validates the
contents of a bracketed host; no claim here uses bracketed hosts). -/
def urlsplitE (s : String) : Except Unit UrlSplitResult :=
  let url0 := (s.data.dropWhile c0ControlOrSpace).filter (fun c => !isUnsafeUrlChar c)
  let sr :=
    match splitFirst ':' url0 with
    | some (pre, post) =>
      if !pre.isEmpty && isAsciiAlpha (pre.headD '0') && pre.all isSchemeChar
      then (pre.map asciiLowerChar, post)
      else (([] : List Char), url0)
    | none => ([], url0)
  let nr :=
    if sr.2.take 2 = ['/', '/'] then
      ((sr.2.drop 2).takeWhile (fun c => !(c = '/' ∨ c = '?' ∨ c = '#')),
       (sr.2.drop 2).dropWhile (fun c => !(c = '/' ∨ c = '?' ∨ c = '#')))
    else ([], sr.2)
  if nr.1.contains '[' ≠ nr.1.contains ']' then Except.error () else
  let fr :=
    match splitFirst '#' nr.2 with
    | some (a, b) => (a, b)
    | none => (nr.2, ([] : List Char))
  let qr :=
    match splitFirst '?' fr.1 with
    | some (a, b) => (a, b)
    | none => (fr.1, ([] : List Char))
  Except.ok ⟨sr.1, nr.1, qr.1, qr.2, fr.2⟩

/-- `SplitResult._hostinfo`: hostname part and optional port text of the
netloc — after the last `@`, a bracketed host keeps the text between `[` and
`]` with a port after `]:`; otherwise the netloc splits at its first `:`; an
empty port text becomes `none`. -/
def hostinfoOf (netloc : List Char) : List Char × Option (List Char) :=
  let hostinfo := afterLastAt netloc
  let br := partitionAt '[' hostinfo
  let hp :=
    if br.2.1 then
      let h := partitionAt ']' br.2.2
      let p := partitionAt ':' h.2.2
      (h.1, p.2.2)
    else
      let h := partitionAt ':' hostinfo
      (h.1, h.2.2)
  (hp.1, if hp.2 = [] then none else some hp.2)

/-- `url.hostname` (`main.py` line 44): `None` on an empty host, otherwise the
host lowercased. -/
def hostnameOf (u : UrlSplitResult) : Option String :=
  let h := (hostinfoOf u.netloc).1
  if h = [] then none else some ⟨h.map asciiLowerChar⟩

/-- `url.port` (`main.py` line 45): `none` when the netloc has no port text;
`Except.error` models the `ValueError` raise on a port that fails `int(_, 10)`
or lies outside `0..65535`. -/
def portOf (u : UrlSplitResult) : Except Unit (Option Int) :=
  match (hostinfoOf u.netloc).2 with
  | none => Except.ok none
  | some p =>
    match pyIntOfChars p with
    | none => Except.error ()
    | some v => if 0 ≤ v ∧ v ≤ 65535 then Except.ok (some v) else Except.error ()

/-- `urllib.parse.urlunsplit(('', '', p, q, ''))` (`main.py` line 51): with an
empty scheme and netloc every netloc-reattachment branch of `urlunsplit` is
skipped, so the path passes through unchanged and a non-empty query is
appended after `?`. -/
def urlunsplitRel (p q : List Char) : List Char :=
  if q ≠ [] then p ++ '?' :: q else p

/-- `relative_path = urlunsplit(('', '', url.path or '/', url.query, ''))`. -/
def relativePath (u : UrlSplitResult) : String :=
  ⟨urlunsplitRel (if u.path = [] then ['/'] else u.path) u.query⟩

/-- The two stream endpoints a connection session writes to or closes. -/
inductive Side
  | client
  | remote
deriving DecidableEq, Repr

/-- Externally visible events of one `handle_client` run, in program order:
an outbound-connection attempt (`asyncio.open_connection`), a buffered write
of bytes to one side, a drain (flush) of one side, and a close of one side. -/
inductive Ev
  | connAttempt (host : Option String) (port : Int)
  | write (dst : Side) (bs : List Nat)
  | drain (dst : Side)
  | close (dst : Side)
deriving DecidableEq, Repr

/-- Trace of the `pipe` loop body (`main.py` lines 78–83) over the list of
successful `reader.read(4096)` results: each chunk is written to the
destination and drained.  `fault = some k` models an I/O exception raised at
the `k`-th iteration (after `k` chunks went through); the `Bool` records
whether the body was exited by that exception. -/
def pipeBody (dst : Side) (chunks : List (List Nat)) (fault : Option Nat) :
    List Ev × Bool :=
  match fault with
  | some k => (((chunks.take k).map (fun c => [Ev.write dst c, Ev.drain dst])).flatten, true)
  | none => ((chunks.map (fun c => [Ev.write dst c, Ev.drain dst])).flatten, false)

/-- Full trace of one `pipe` call: the loop body followed by the `finally:`
close of the destination (`main.py` line 87), reached on clean end-of-stream
and on fault alike. -/
def pipeRun (dst : Side) (chunks : List (List Nat)) (fault : Option Nat) :
    List Ev :=
  (pipeBody dst chunks fault).1 ++ [Ev.close dst]

/-- Result of one `pipe` call as seen by its awaiting caller: the trace, and
whether an exception escaped — always `false`, because `except Exception:
pass` (`main.py` lines 84–85) swallows every loop fault. -/
def pipeResult (dst : Side) (chunks : List (List Nat)) (fault : Option Nat) :
    List Ev × Bool :=
  (pipeRun dst chunks fault, false)

/-- The write payloads a trace carries to destination `dst`, in order. -/
def writesTo (dst : Side) (tr : List Ev) : List (List Nat) :=
  tr.filterMap (fun e =>
    match e with
    | Ev.write d bs => if d = dst then some bs else none
    | _ => none)

/-- One run of `reader.read(4096)` chunking on a flat byte source: while bytes
remain, the transport hands over some positive number of bytes (the schedule,
capped by the `4096` argument of `read`), and the loop consumes them; an
exhausted source ends the loop.  The schedule makes the nondeterministic chunk
boundaries of a stream transport explicit. -/
def pipeLoop (src : List Nat) (sched : List Nat) : List (List Nat) :=
  match src with
  | [] => []
  | b :: rest =>
    let c := min (sched.headD 4095 + 1) 4096
    (b :: rest).take c :: pipeLoop ((b :: rest).drop c) sched.tail
termination_by src.length
decreasing_by
  simp only [List.length_drop, List.length_cons]
  omega

/-- Scripted I/O environment of one `handle_client` run: the decoded request
line (`none` models an empty first `readline`, i.e. immediate end-of-stream),
the raw header lines `readline` will deliver, which outbound connection
attempts succeed, and for each relay direction the successful chunk reads and
an optional induced fault position. -/
structure Env where
  requestLine : Option String
  headerStream : List (List Nat)
  connectOk : Option String → Int → Bool
  clientChunks : List (List Nat)
  clientFault : Option Nat
  remoteChunks : List (List Nat)
  remoteFault : Option Nat

/-- `await asyncio.gather(pipe(client_reader, remote_writer),
pipe(remote_reader, client_writer))` (`main.py` lines 33–36 and 64–67):
both relay directions run to completion before control returns — the trace
contains the full sub-trace of each direction, the client→remote direction
writing and closing the remote side and the remote→client direction writing
and closing the client side.  (The interleaving between the two directions is
unspecified and not modelled; every event of both directions precedes
whatever follows the `gather`.) -/
def sessionPipes (env : Env) : List Ev :=
  pipeRun Side.remote env.clientChunks env.clientFault ++
    pipeRun Side.client env.remoteChunks env.remoteFault

/-- The CONNECT branch after target parsing (`main.py` lines 26–39): attempt
the outbound connection; on success write the 200 line, drain, and run both
relay directions; on failure write the 502 line and drain.  The `Bool` is the
raised flag (this branch handles all its exceptions). -/
def tunnelStep (env : Env) (host : String) (port : Int) (version : String) :
    List Ev × Bool :=
  if env.connectOk (some host) port then
    ([Ev.connAttempt (some host) port,
      Ev.write Side.client (enc (version ++ " 200 Connection established\r\n\r\n")),
      Ev.drain Side.client] ++ sessionPipes env, false)
  else
    ([Ev.connAttempt (some host) port,
      Ev.write Side.client (enc (version ++ " 502 Bad Gateway\r\n\r\n")),
      Ev.drain Side.client], false)

/-- The forward branch after URL parsing (`main.py` lines 47–70): attempt the
outbound connection; on success write the rewritten request line, forward
every header except `Proxy-Connection` ones, append `Connection: close` and a
blank line, drain, and run both relay directions; on failure write the 502
line and drain. -/
def forwardStep (env : Env) (method version : String) (host : Option String)
    (port : Int) (rel : String) (headers : List (List Nat)) : List Ev × Bool :=
  if env.connectOk host port then
    ([Ev.connAttempt host port,
      Ev.write Side.remote (enc (method ++ " " ++ rel ++ " " ++ version ++ "\r\n"))] ++
      (headers.filter (fun h => !isProxyConnectionHeader h)).map (Ev.write Side.remote) ++
      [Ev.write Side.remote (enc "Connection: close\r\n\r\n"),
       Ev.drain Side.remote] ++ sessionPipes env, false)
  else
    ([Ev.connAttempt host port,
      Ev.write Side.client (enc (version ++ " 502 Bad Gateway\r\n\r\n")),
      Ev.drain Side.client], false)

/-- `port = url.port or 80` (`main.py` line 45): Python's `or` takes `80` when
`url.port` is `None` and also when it is the falsy port `0`. -/
def effectivePort (p0 : Option Int) : Int :=
  match p0 with
  | none => 80
  | some p => if p = 0 then 80 else p

/-- `handle_client` (`main.py` lines 5–72).  An empty first readline closes
the client at once.  A parsed request line dispatches on
`method.upper() == 'CONNECT'`.  The CONNECT target split/int-parse (lines
24–25) and the URL split / `url.hostname` / `url.port` accesses (lines 43–45)
sit OUTSIDE the `try:` blocks, so their `ValueError` raises escape the
coroutine with nothing written and nothing closed (`([], true)`).  When the
selected branch returns without raising, the dispatcher's final
`client_writer.close()` (line 72) is appended; a raised flag from the branch
would skip it (no current branch raises after dispatch).

`dispatch` is the method branch (lines 23–70): `none` models the unhandled
`ValueError` of the pre-`try:` parses; the header loop (lines 15–20) runs
before dispatch in the source, and since it is pure its result is referenced
here inside the forward branch, the only consumer. -/
def dispatch (env : Env) (method path version : String) :
    Option (List Ev × Bool) :=
  if asciiUpper method = "CONNECT" then
    match connectTarget path with
    | none => none
    | some (host, port) => some (tunnelStep env host port version)
  else
    match urlsplitE path with
    | Except.error _ => none
    | Except.ok u =>
      match portOf u with
      | Except.error _ => none
      | Except.ok p0 =>
        some (forwardStep env method version (hostnameOf u) (effectivePort p0)
          (relativePath u) (readHeaders env.headerStream))

def handleClient (env : Env) : List Ev × Bool :=
  match env.requestLine with
  | none => ([Ev.close Side.client], false)
  | some line =>
    match parseRequestLine line with
    | none => ([], true)
    | some (method, path, version) =>
      match dispatch env method path version with
      | none => ([], true)
      | some (tr, raised) =>
        if raised then (tr, true) else (tr ++ [Ev.close Side.client], false)

/-! ## Concrete environments used by witnesses and counterexamples -/

/-- Environment template: no request, no reachable target, no relay data. -/
def baseEnv : Env where
  requestLine := none
  headerStream := []
  connectOk := fun _ _ => false
  clientChunks := []
  clientFault := none
  remoteChunks := []
  remoteFault := none

/-- A CONNECT request whose target has no colon, against a fully reachable
network. -/
def envConnectNoColon : Env :=
  { baseEnv with requestLine := some "CONNECT localhost HTTP/1.1",
                 connectOk := fun _ _ => true }

/-- A CONNECT request whose port text fails `int(...)`, against a fully
reachable network. -/
def envConnectBadPort : Env :=
  { baseEnv with requestLine := some "CONNECT example.com:4x3 HTTP/1.1",
                 connectOk := fun _ _ => true }

/-- A CONNECT request to a reachable target, with one data chunk flowing in
each relay direction. -/
def envTunnelOk : Env :=
  { baseEnv with requestLine := some "CONNECT example.com:443 HTTP/1.1",
                 connectOk := fun _ _ => true,
                 clientChunks := [[1, 2]], remoteChunks := [[3]] }

/-- Sample header block: `Host`, `Proxy-Connection` and `User-Agent` lines. -/
def sampleHeaders : List (List Nat) :=
  [enc "Host: example.com\r\n", enc "Proxy-Connection: keep-alive\r\n",
   enc "User-Agent: curl/8.0\r\n"]

/-- An absolute-form GET through the proxy with the sample headers, against a
reachable target. -/
def envForwardGet : Env :=
  { baseEnv with requestLine := some "GET http://example.com/foo?x=1 HTTP/1.1",
                 headerStream := sampleHeaders ++ [crlf],
                 connectOk := fun _ _ => true }

/-- An absolute-form GET whose URL has an empty path. -/
def envForwardNoPath : Env :=
  { baseEnv with requestLine := some "GET http://example.com HTTP/1.1",
                 connectOk := fun _ _ => true }

/-- A GET whose URL has a non-numeric port, making `url.port` raise. -/
def envBadPortUrl : Env :=
  { baseEnv with requestLine := some "GET http://example.com:7x/ HTTP/1.1",
                 connectOk := fun _ _ => true }

/-- An origin-form GET (no hostname in the target), against a network where
even the host-less connection attempt succeeds. -/
def envNoHostname : Env :=
  { baseEnv with requestLine := some "GET /index.html HTTP/1.1",
                 connectOk := fun _ _ => true }

/-- An origin-form GET (no hostname in the target) with every connection
attempt failing. -/
def envNoHostFail : Env :=
  { baseEnv with requestLine := some "GET /index.html HTTP/1.1" }

/-- `urlsplit("/index.html")`. -/
def relUrl : UrlSplitResult :=
  { scheme := [], netloc := [], path := "/index.html".data, query := [],
    fragment := [] }

/-- `urlsplit("http://example.com/foo?x=1")`. -/
def fooUrl : UrlSplitResult :=
  { scheme := "http".data, netloc := "example.com".data, path := "/foo".data,
    query := "x=1".data, fragment := [] }

/-- A CONNECT request whose version field contains spaces, with the connection
attempt failing (the 502 line echoes the whole remainder). -/
def envEchoTunnel : Env :=
  { baseEnv with requestLine := some "CONNECT example.com:443 HTTP/1.1 v2 beta" }

/-- A forward request whose version field contains a space, against a
reachable target (the forwarded request line echoes the remainder). -/
def envEchoForward : Env :=
  { baseEnv with requestLine := some "GET http://example.com/a HTTP/1.1 v2",
                 connectOk := fun _ _ => true }

/-! ## Helper lemmas -/

theorem dropWhile_eq_self_of_head {p : Char → Bool} {cs : List Char}
    (h : ∀ c, cs.head? = some c → p c = false) : cs.dropWhile p = cs := by
  cases cs with
  | nil => rfl
  | cons c cs' => simp [List.dropWhile_cons, h c rfl]

theorem pyStrip_eq_self {cs : List Char}
    (h1 : ∀ c, cs.head? = some c → isPyWs c = false)
    (h2 : ∀ c, cs.getLast? = some c → isPyWs c = false) : pyStrip cs = cs := by
  unfold pyStrip
  rw [dropWhile_eq_self_of_head h1, dropWhile_eq_self_of_head
    (by intro c hc; exact h2 c (by rwa [List.head?_reverse] at hc)), List.reverse_reverse]

theorem splitOnceSp_of_not_mem {cs : List Char} (h : ' ' ∉ cs) :
    splitOnceSp cs = none := by
  induction cs with
  | nil => rfl
  | cons c cs' ih =>
    have hc : ¬ c = ' ' := fun hc => h (hc ▸ List.mem_cons_self c cs')
    simp only [splitOnceSp, if_neg hc,
      ih (fun hm => h (List.mem_cons_of_mem c hm)), Option.map_none']

theorem splitOnceSp_append {a : List Char} (t : List Char) (h : ' ' ∉ a) :
    splitOnceSp (a ++ ' ' :: t) = some (a, t) := by
  induction a with
  | nil => simp [splitOnceSp]
  | cons c a' ih =>
    have hc : ¬ c = ' ' := fun hc => h (hc ▸ List.mem_cons_self c a')
    simp only [List.cons_append, splitOnceSp, if_neg hc, List.append_eq,
      ih (fun hm => h (List.mem_cons_of_mem c hm)), Option.map_some']

theorem splitOnceSp_of_mem {cs : List Char} (h : ' ' ∈ cs) :
    ∃ a b, splitOnceSp cs = some (a, b) ∧ cs = a ++ ' ' :: b ∧ ' ' ∉ a := by
  induction cs with
  | nil => cases h
  | cons c cs' ih =>
    by_cases hc : c = ' '
    · exact ⟨[], cs', by simp [splitOnceSp, hc], by simp [hc], by simp⟩
    · have hm : ' ' ∈ cs' := by
        cases List.mem_cons.mp h with
        | inl h0 => exact absurd h0.symm hc
        | inr h0 => exact h0
      obtain ⟨a, b, hsp, hdec, hna⟩ := ih hm
      refine ⟨c :: a, b, ?_, ?_, ?_⟩
      · simp only [splitOnceSp, if_neg hc, hsp, Option.map_some']
      · simp [hdec]
      · intro hmem
        cases List.mem_cons.mp hmem with
        | inl h0 => exact hc h0.symm
        | inr h0 => exact hna h0

theorem takeWhile_eq_self {α : Type} {p : α → Bool} {l : List α}
    (h : ∀ x ∈ l, p x = true) : l.takeWhile p = l := by
  induction l with
  | nil => rfl
  | cons x l' ih =>
    simp [List.takeWhile_cons, h x (List.mem_cons_self x l'),
      ih (fun y hy => h y (List.mem_cons_of_mem x hy))]

theorem takeWhile_append_cons {α : Type} {p : α → Bool} {l : List α}
    (x : α) (r : List α) (h : ∀ y ∈ l, p y = true) (hx : p x = false) :
    (l ++ x :: r).takeWhile p = l := by
  induction l with
  | nil => simp [List.takeWhile_cons, hx]
  | cons y l' ih =>
    simp [List.takeWhile_cons, h y (List.mem_cons_self y l'),
      ih (fun z hz => h z (List.mem_cons_of_mem y hz))]

theorem writesTo_writeDrain (dst : Side) (chunks : List (List Nat)) :
    writesTo dst
      ((chunks.map (fun c => [Ev.write dst c, Ev.drain dst])).flatten ++
        [Ev.close dst]) = chunks := by
  induction chunks with
  | nil => rfl
  | cons c cs ih =>
    simpa [writesTo, List.filterMap_cons] using ih

theorem writesTo_pipeRun_none (dst : Side) (chunks : List (List Nat)) :
    writesTo dst (pipeRun dst chunks none) = chunks :=
  writesTo_writeDrain dst chunks

theorem writesTo_pipeRun_fault (dst : Side) (chunks : List (List Nat)) (k : Nat) :
    writesTo dst (pipeRun dst chunks (some k)) = chunks.take k := by
  simpa [pipeRun, pipeBody] using writesTo_writeDrain dst (chunks.take k)

theorem pipeRun_getLast? (dst : Side) (chunks : List (List Nat))
    (fault : Option Nat) :
    (pipeRun dst chunks fault).getLast? = some (Ev.close dst) := by
  simp [pipeRun, List.getLast?_concat]

theorem pipeLoop_flatten (src sched : List Nat) :
    (pipeLoop src sched).flatten = src := by
  induction src, sched using pipeLoop.induct with
  | case1 sched => rw [pipeLoop]; rfl
  | case2 sched b rest c ih =>
    rw [pipeLoop]
    simp only [List.flatten_cons]
    rw [show (pipeLoop ((b :: rest).drop (min (sched.headD 4095 + 1) 4096))
      sched.tail).flatten = (b :: rest).drop (min (sched.headD 4095 + 1) 4096)
      from ih]
    exact List.take_append_drop _ _

theorem pipeLoop_chunk_bound (src sched : List Nat) :
    ∀ c ∈ pipeLoop src sched, c ≠ [] ∧ c.length ≤ 4096 := by
  induction src, sched using pipeLoop.induct with
  | case1 sched => rw [pipeLoop]; intro c hc; cases hc
  | case2 sched b rest c ih =>
    intro ck hck
    rw [pipeLoop] at hck
    rcases List.mem_cons.mp hck with h0 | h0
    · subst h0
      refine ⟨?_, ?_⟩
      · have h1 : 1 ≤ min (sched.headD 4095 + 1) 4096 :=
          Nat.le_min.mpr ⟨by omega, by omega⟩
        obtain ⟨k, hk⟩ := Nat.exists_eq_add_of_le h1
        have h2 : min (sched.headD 4095 + 1) 4096 = k + 1 := by omega
        simp [h2, List.take_succ_cons]
      · calc ((b :: rest).take (min (sched.headD 4095 + 1) 4096)).length
            ≤ min (sched.headD 4095 + 1) 4096 := by
              simp
          _ ≤ 4096 := Nat.min_le_right _ _
    · exact ih ck h0

/-! ## Claims -/

/-- Claim C1, counterexample: the claim asserts the dispatcher closes the
client connection as its final step even when the selected handler raises an
unexpected fault, naming the CONNECT host:port split as an example.  At the
parsed request `CONNECT localhost HTTP/1.1` the split fault at `main.py`
line 24 propagates out of `handle_client` before the `try:` block, the trace
is empty (no close event at all) and the raised flag is set — line 72 never
runs. -/
theorem dispatcher_close_skipped_counterexample :
    parseRequestLine "CONNECT localhost HTTP/1.1" =
      some ("CONNECT", "localhost", "HTTP/1.1") ∧
    handleClient envConnectNoColon = ([], true) :=
  ⟨by decide, by decide⟩

/-- Claim C1, amended: the Connection Dispatcher closes the client connection
as the final step of every run in which no handler fault escapes (successful
sessions and both 502 paths included); when a handler raises an unexpected
fault — e.g. a CONNECT request-target failing the host:port split or the
integer port parse — the exception propagates past `client_writer.close()`
and the dispatcher does not close the client. -/
theorem dispatcher_closes_client_when_no_fault (env : Env) (tr : List Ev)
    (h : handleClient env = (tr, false)) :
    tr.getLast? = some (Ev.close Side.client) := by
  unfold handleClient at h
  rcases henv : env.requestLine with _ | line <;> simp only [henv] at h
  · rw [Prod.mk.injEq] at h
    rw [← h.1]
    rfl
  · rcases hp : parseRequestLine line with _ | ⟨m, p, v⟩ <;> simp only [hp] at h
    · rw [Prod.mk.injEq] at h
      exact Bool.noConfusion h.2
    · rcases hd : dispatch env m p v with _ | ⟨tr', raised⟩ <;>
        simp only [hd] at h
      · rw [Prod.mk.injEq] at h
        exact Bool.noConfusion h.2
      · cases raised
        · rw [if_neg (by simp)] at h
          rw [Prod.mk.injEq] at h
          rw [← h.1]
          exact List.getLast?_concat _
        · rw [if_pos rfl] at h
          rw [Prod.mk.injEq] at h
          exact Bool.noConfusion h.2

/-- Claim C1, witness for the amended theorem: a complete tunnel session run
ends in the dispatcher's client close. -/
theorem dispatcher_closes_client_witness :
    (handleClient envTunnelOk).1.getLast? = some (Ev.close Side.client) :=
  dispatcher_closes_client_when_no_fault envTunnelOk
    (handleClient envTunnelOk).1 (by decide)

/-- Claim C2, counterexample: the claim asserts a CONNECT target that fails
the colon split or the port parse yields a 502 response and a close, like a
connect failure.  At `CONNECT example.com:4x3 HTTP/1.1` — the port text fails
`int(...)` — the run instead raises before the `try:` block: the trace is
empty, so no 502 bytes are written and the connection is not closed. -/
theorem connect_bad_port_counterexample :
    parseRequestLine "CONNECT example.com:4x3 HTTP/1.1" =
      some ("CONNECT", "example.com:4x3", "HTTP/1.1") ∧
    handleClient envConnectBadPort = ([], true) ∧
    Ev.write Side.client (enc "HTTP/1.1 502 Bad Gateway\r\n\r\n") ∉
      (handleClient envConnectBadPort).1 :=
  ⟨by decide, by decide, by decide⟩

/-- Claim C2, amended: a CONNECT request whose request-target fails the
single-colon split or whose port fails integer parsing is NOT treated like an
outbound connect failure: the `ValueError` is raised at `main.py` lines 24–25,
before the `try:` block, so the handler writes nothing (no 502), attempts no
connection, and the exception escapes `handle_client` without the client
connection being closed. -/
theorem connect_parse_fault_propagates (env : Env) (line m p v : String)
    (h1 : env.requestLine = some line)
    (h2 : parseRequestLine line = some (m, p, v))
    (h3 : asciiUpper m = "CONNECT")
    (h4 : connectTarget p = none) :
    handleClient env = ([], true) := by
  simp [handleClient, dispatch, h1, h2, h3, h4]

/-- Claim C2, witness for the amended theorem: the bad-port CONNECT request
raises with an empty trace. -/
theorem connect_parse_fault_witness :
    handleClient envConnectBadPort = ([], true) :=
  connect_parse_fault_propagates envConnectBadPort
    "CONNECT example.com:4x3 HTTP/1.1" "CONNECT" "example.com:4x3" "HTTP/1.1"
    rfl (by decide) (by decide) (by decide)

/-- Claim C3: for a CONNECT request whose outbound connection succeeds, the
handler writes exactly `<version> 200 Connection established\r\n\r\n` to the
client (and drains it) before any relay event, then runs both relay
directions to completion — the full client→remote sub-trace (ending in the
close of the remote side) and the full remote→client sub-trace (ending in the
close of the client side) both appear before the dispatcher's final close:
the session ends on a join of both directions, not on the first exit. -/
theorem tunnel_success_trace (env : Env) (line m p v host : String)
    (port : Int)
    (h1 : env.requestLine = some line)
    (h2 : parseRequestLine line = some (m, p, v))
    (h3 : asciiUpper m = "CONNECT")
    (h4 : connectTarget p = some (host, port))
    (h5 : env.connectOk (some host) port = true) :
    handleClient env =
      ([Ev.connAttempt (some host) port,
        Ev.write Side.client (enc (v ++ " 200 Connection established\r\n\r\n")),
        Ev.drain Side.client] ++
       (pipeRun Side.remote env.clientChunks env.clientFault ++
        pipeRun Side.client env.remoteChunks env.remoteFault) ++
       [Ev.close Side.client], false) := by
  simp [handleClient, dispatch, h1, h2, h3, h4, tunnelStep, h5, sessionPipes]

/-- Claim C3, witness: a concrete tunnel session with one chunk per
direction. -/
theorem tunnel_success_trace_witness :
    handleClient envTunnelOk =
      ([Ev.connAttempt (some "example.com") 443,
        Ev.write Side.client
          (enc ("HTTP/1.1" ++ " 200 Connection established\r\n\r\n")),
        Ev.drain Side.client] ++
       (pipeRun Side.remote [[1, 2]] none ++ pipeRun Side.client [[3]] none) ++
       [Ev.close Side.client], false) :=
  tunnel_success_trace envTunnelOk "CONNECT example.com:443 HTTP/1.1"
    "CONNECT" "example.com:443" "HTTP/1.1" "example.com" 443 rfl (by decide)
    (by decide) (by decide) rfl

/-- Claim C4: for every flat byte source and every transport chunking
schedule, a fault-free relay writes exactly the source bytes, in order, to its
destination — the concatenation of the destination writes equals the source —
and every read chunk is non-empty and at most 4096 bytes. -/
theorem relay_roundtrip (dst : Side) (src sched : List Nat) :
    (writesTo dst (pipeRun dst (pipeLoop src sched) none)).flatten = src ∧
    ∀ c ∈ writesTo dst (pipeRun dst (pipeLoop src sched) none),
      c ≠ [] ∧ c.length ≤ 4096 := by
  rw [writesTo_pipeRun_none]
  exact ⟨pipeLoop_flatten src sched, pipeLoop_chunk_bound src sched⟩

/-- Claim C6: the header loop stops at the first bare-CRLF line — returning
exactly the preceding lines, byte-for-byte, in order, excluding the
terminator — and at end-of-stream returns all lines read so far. -/
theorem header_read_stops (pre post : List (List Nat))
    (h : ∀ l ∈ pre, l ≠ [] ∧ l ≠ crlf) :
    readHeaders (pre ++ crlf :: post) = pre ∧ readHeaders pre = pre := by
  constructor
  · exact takeWhile_append_cons crlf post
      (fun y hy => by simp [(h y hy).1, (h y hy).2]) (by simp)
  · exact takeWhile_eq_self (fun y hy => by simp [(h y hy).1, (h y hy).2])

/-- Claim C6, witness: a one-header block with trailing junk after the
terminator. -/
theorem header_read_stops_witness :
    readHeaders ([enc "Host: a\r\n"] ++ crlf :: [enc "junk\r\n"]) =
      [enc "Host: a\r\n"] ∧
    readHeaders [enc "Host: a\r\n"] = [enc "Host: a\r\n"] :=
  header_read_stops [enc "Host: a\r\n"] [enc "junk\r\n"] (by decide)

/-- Claim C8: a relay direction never escalates an error to its caller (the
result of awaiting `pipe` carries `raised = false` with and without an induced
fault), its trace ends with the close of the destination endpoint on every
exit — clean end-of-stream and fault alike — and a fault at iteration `k`
silently stops the loop after exactly the first `k` chunks were written. -/
theorem relay_fault_silent_closes (dst : Side) (chunks : List (List Nat))
    (k : Nat) :
    (pipeResult dst chunks (some k)).2 = false ∧
    (pipeResult dst chunks none).2 = false ∧
    (pipeRun dst chunks (some k)).getLast? = some (Ev.close dst) ∧
    (pipeRun dst chunks none).getLast? = some (Ev.close dst) ∧
    writesTo dst (pipeRun dst chunks (some k)) = chunks.take k ∧
    writesTo dst (pipeRun dst chunks none) = chunks :=
  ⟨rfl, rfl, pipeRun_getLast? dst chunks (some k),
   pipeRun_getLast? dst chunks none, writesTo_pipeRun_fault dst chunks k,
   writesTo_pipeRun_none dst chunks⟩

/-- Claim C5: for the request line `GET http://example.com/foo?x=1 HTTP/1.1`
with any header block, when the outbound connection succeeds the remote
receives the rewritten request line `GET /foo?x=1 HTTP/1.1\r\n`, then every
original header verbatim and in order except those matching
`Proxy-Connection` case-insensitively, then `Connection: close\r\n\r\n`;
moreover the sample `Proxy-Connection: keep-alive` header does match the
filter, and a URL with an empty path is rewritten to `/`. -/
theorem forward_rewrite_trace (hs : List (List Nat)) (env : Env)
    (h1 : env.requestLine = some "GET http://example.com/foo?x=1 HTTP/1.1")
    (h2 : env.headerStream = hs ++ [crlf])
    (h3 : ∀ l ∈ hs, l ≠ [] ∧ l ≠ crlf)
    (h4 : env.connectOk (some "example.com") 80 = true) :
    handleClient env =
      ([Ev.connAttempt (some "example.com") 80,
        Ev.write Side.remote (enc "GET /foo?x=1 HTTP/1.1\r\n")] ++
       (hs.filter (fun h => !isProxyConnectionHeader h)).map
         (Ev.write Side.remote) ++
       [Ev.write Side.remote (enc "Connection: close\r\n\r\n"),
        Ev.drain Side.remote] ++
       (pipeRun Side.remote env.clientChunks env.clientFault ++
        pipeRun Side.client env.remoteChunks env.remoteFault) ++
       [Ev.close Side.client], false) ∧
    isProxyConnectionHeader (enc "Proxy-Connection: keep-alive\r\n") = true ∧
    (handleClient envForwardNoPath).1.take 2 =
      [Ev.connAttempt (some "example.com") 80,
       Ev.write Side.remote (enc "GET / HTTP/1.1\r\n")] := by
  refine ⟨?_, by decide, by decide⟩
  have hparse : parseRequestLine "GET http://example.com/foo?x=1 HTTP/1.1" =
      some ("GET", "http://example.com/foo?x=1", "HTTP/1.1") := by decide
  have hcn : ¬ asciiUpper "GET" = "CONNECT" := by decide
  have hurl : urlsplitE "http://example.com/foo?x=1" = Except.ok fooUrl := rfl
  have hport : portOf fooUrl = Except.ok none := rfl
  have hhost : hostnameOf fooUrl = some "example.com" := rfl
  have hrel : relativePath fooUrl = "/foo?x=1" := rfl
  have hline : ("GET" ++ " " ++ "/foo?x=1" ++ " " ++ "HTTP/1.1" ++ "\r\n"
      : String) = "GET /foo?x=1 HTTP/1.1\r\n" := rfl
  have hhdr : readHeaders (hs ++ [crlf]) = hs :=
    takeWhile_append_cons crlf []
      (fun y hy => by simp [(h3 y hy).1, (h3 y hy).2]) (by simp)
  simp [handleClient, dispatch, h1, hparse, hcn, hurl, hport, hhost, hrel,
    hline, forwardStep, h2, hhdr, h4, sessionPipes, effectivePort]

/-- Claim C5, witness: the sample header block, where exactly the
`Proxy-Connection` line is dropped. -/
theorem forward_rewrite_trace_witness :
    (∀ l ∈ sampleHeaders, l ≠ [] ∧ l ≠ crlf) ∧
    handleClient envForwardGet =
      ([Ev.connAttempt (some "example.com") 80,
        Ev.write Side.remote (enc "GET /foo?x=1 HTTP/1.1\r\n")] ++
       (sampleHeaders.filter (fun h => !isProxyConnectionHeader h)).map
         (Ev.write Side.remote) ++
       [Ev.write Side.remote (enc "Connection: close\r\n\r\n"),
        Ev.drain Side.remote] ++
       (pipeRun Side.remote [] none ++ pipeRun Side.client [] none) ++
       [Ev.close Side.client], false) ∧
    sampleHeaders.filter (fun h => !isProxyConnectionHeader h) =
      [enc "Host: example.com\r\n", enc "User-Agent: curl/8.0\r\n"] :=
  ⟨by decide,
   (forward_rewrite_trace sampleHeaders envForwardGet rfl rfl (by decide)
     rfl).1,
   by decide⟩

/-- Claim C7: a request line made of exactly three non-empty
whitespace-free fields separated by single spaces parses to exactly those
three fields, unchanged (case preserved). -/
theorem request_line_three_fields (m p v : List Char)
    (hm : m ≠ []) (_hp : p ≠ []) (hv : v ≠ [])
    (hw : ∀ c ∈ m ++ p ++ v, isPyWs c = false) :
    parseRequestLine ⟨m ++ ' ' :: (p ++ ' ' :: v)⟩ =
      some (⟨m⟩, ⟨p⟩, ⟨v⟩) := by
  have hwm : ∀ c ∈ m, isPyWs c = false := fun c hc => hw c (by simp [hc])
  have hwp : ∀ c ∈ p, isPyWs c = false := fun c hc => hw c (by simp [hc])
  have hwv : ∀ c ∈ v, isPyWs c = false := fun c hc => hw c (by simp [hc])
  have hnm : ' ' ∉ m := fun hc => by simpa [isPyWs] using hwm ' ' hc
  have hnp : ' ' ∉ p := fun hc => by simpa [isPyWs] using hwp ' ' hc
  have hstrip : pyStrip (m ++ ' ' :: (p ++ ' ' :: v)) =
      m ++ ' ' :: (p ++ ' ' :: v) := by
    apply pyStrip_eq_self
    · intro c hc
      obtain ⟨a, m', rfl⟩ := List.exists_cons_of_ne_nil hm
      simp only [List.cons_append, List.head?_cons, Option.some.injEq] at hc
      exact hc ▸ hwm a (List.mem_cons_self a m')
    · intro c hc
      obtain ⟨v', a, rfl⟩ := (List.eq_nil_or_concat v).resolve_left hv
      rw [show m ++ ' ' :: (p ++ ' ' :: v'.concat a) =
        (m ++ ' ' :: (p ++ ' ' :: v')) ++ [a] by
          simp [List.concat_eq_append]] at hc
      rw [List.getLast?_concat] at hc
      exact Option.some.inj hc ▸ hwv a (by simp [List.concat_eq_append])
  have hsplit : pySplitSp2 (m ++ ' ' :: (p ++ ' ' :: v)) = [m, p, v] := by
    unfold pySplitSp2
    rw [splitOnceSp_append (p ++ ' ' :: v) hnm]
    show (match splitOnceSp (p ++ ' ' :: v) with
      | none => [m, p ++ ' ' :: v]
      | some (b, rest2) => [m, b, rest2]) = [m, p, v]
    rw [splitOnceSp_append v hnp]
  have hdata : (⟨m ++ ' ' :: (p ++ ' ' :: v)⟩ : String).data =
      m ++ ' ' :: (p ++ ' ' :: v) := rfl
  unfold parseRequestLine
  rw [hdata, hstrip, hsplit]

/-- Claim C7, witness: `GET /a HTTP/1.1`. -/
theorem request_line_three_fields_witness :
    parseRequestLine
        ⟨"GET".data ++ ' ' :: ("/a".data ++ ' ' :: "HTTP/1.1".data)⟩ =
      some ("GET", "/a", "HTTP/1.1") :=
  request_line_three_fields "GET".data "/a".data "HTTP/1.1".data
    (by decide) (by decide) (by decide) (by decide)

/-- Claim C9, counterexample: the claim asserts that a non-CONNECT
request-target with no extractable hostname, or one failing URL parsing,
takes the 502 path and never opens an outbound connection.  At
`GET http://example.com:7x/ HTTP/1.1` the `url.port` access raises at
`main.py` line 45, outside the `try:` — nothing is written (no 502) and the
client is not closed.  And at the hostname-less `GET /index.html HTTP/1.1`
the code still attempts `open_connection(None, 80)`; when that attempt
succeeds the request is forwarded with no 502 at all. -/
theorem forward_bad_url_counterexample :
    handleClient envBadPortUrl = ([], true) ∧
    (handleClient envNoHostname).2 = false ∧
    Ev.connAttempt none 80 ∈ (handleClient envNoHostname).1 ∧
    Ev.write Side.client (enc "HTTP/1.1 502 Bad Gateway\r\n\r\n") ∉
      (handleClient envNoHostname).1 :=
  ⟨by decide, by decide, by decide, by decide⟩

/-- Claim C9, amended: for a non-CONNECT request whose URL splits without
raising and whose `url.port` access succeeds, the handler attempts the
outbound connection with the extracted hostname — possibly `None` — and the
`or 80` port; if and only if that attempt fails does it write
`<version> 502 Bad Gateway\r\n\r\n`, drain, and close the client.  A
request-target that makes `urlsplit` or `url.port` raise instead propagates
the fault with no 502 and no close. -/
theorem forward_connect_failure_502 (env : Env) (line m p v : String)
    (u : UrlSplitResult) (p0 : Option Int)
    (h1 : env.requestLine = some line)
    (h2 : parseRequestLine line = some (m, p, v))
    (h3 : ¬ asciiUpper m = "CONNECT")
    (h4 : urlsplitE p = Except.ok u)
    (h5 : portOf u = Except.ok p0)
    (h6 : env.connectOk (hostnameOf u) (effectivePort p0) = false) :
    handleClient env =
      ([Ev.connAttempt (hostnameOf u) (effectivePort p0),
        Ev.write Side.client (enc (v ++ " 502 Bad Gateway\r\n\r\n")),
        Ev.drain Side.client, Ev.close Side.client], false) := by
  simp [handleClient, dispatch, h1, h2, h3, h4, h5, forwardStep, h6]

/-- Claim C9, witness for the amended theorem: a hostname-less target whose
host-less connection attempt fails receives the 502 line and a close. -/
theorem forward_connect_failure_502_witness :
    handleClient envNoHostFail =
      ([Ev.connAttempt (hostnameOf relUrl) (effectivePort none),
        Ev.write Side.client (enc ("HTTP/1.1" ++ " 502 Bad Gateway\r\n\r\n")),
        Ev.drain Side.client, Ev.close Side.client], false) :=
  forward_connect_failure_502 envNoHostFail "GET /index.html HTTP/1.1" "GET"
    "/index.html" "HTTP/1.1" relUrl none rfl (by decide) (by decide) rfl rfl
    rfl

/-- Claim C10: a request line whose stripped text contains at least two
spaces always parses (no fault), splitting into the text before the first
space, the text between the first and second spaces, and the entire
remainder — which may itself contain spaces; concretely, a spaced version
field is echoed verbatim into the 502 response line and into the forwarded
request line. -/
theorem request_line_lenient (s : String)
    (h : 2 ≤ (pyStrip s.data).count ' ') :
    (∃ a b c, parseRequestLine s = some (⟨a⟩, ⟨b⟩, ⟨c⟩) ∧
      pyStrip s.data = a ++ ' ' :: (b ++ ' ' :: c) ∧ ' ' ∉ a ∧ ' ' ∉ b) ∧
    handleClient envEchoTunnel =
      ([Ev.connAttempt (some "example.com") 443,
        Ev.write Side.client (enc "HTTP/1.1 v2 beta 502 Bad Gateway\r\n\r\n"),
        Ev.drain Side.client, Ev.close Side.client], false) ∧
    (handleClient envEchoForward).1.take 2 =
      [Ev.connAttempt (some "example.com") 80,
       Ev.write Side.remote (enc "GET /a HTTP/1.1 v2\r\n")] := by
  refine ⟨?_, by decide, by decide⟩
  have hmem : ' ' ∈ pyStrip s.data := by
    by_contra hx
    rw [List.count_eq_zero.mpr hx] at h
    omega
  obtain ⟨a, rest, hsp1, hdec1, hna⟩ := splitOnceSp_of_mem hmem
  have hcount : (pyStrip s.data).count ' ' = rest.count ' ' + 1 := by
    rw [hdec1]
    simp [List.count_append, List.count_cons, List.count_eq_zero.mpr hna]
  have hmem2 : ' ' ∈ rest := by
    by_contra hx
    rw [List.count_eq_zero.mpr hx] at hcount
    omega
  obtain ⟨b, c, hsp2, hdec2, hnb⟩ := splitOnceSp_of_mem hmem2
  refine ⟨a, b, c, ?_, ?_, hna, hnb⟩
  · simp only [parseRequestLine, pySplitSp2, hsp1, hsp2]
  · rw [hdec1, hdec2]

/-- Claim C10, witness: a five-field request line parses with the remainder
after the second space kept whole. -/
theorem request_line_lenient_witness :
    2 ≤ (pyStrip "GET / HTTP/1.1 extra junk".data).count ' ' ∧
    ((∃ a b c,
        parseRequestLine "GET / HTTP/1.1 extra junk" = some (⟨a⟩, ⟨b⟩, ⟨c⟩) ∧
        pyStrip "GET / HTTP/1.1 extra junk".data =
          a ++ ' ' :: (b ++ ' ' :: c) ∧ ' ' ∉ a ∧ ' ' ∉ b) ∧
      handleClient envEchoTunnel =
        ([Ev.connAttempt (some "example.com") 443,
          Ev.write Side.client
            (enc "HTTP/1.1 v2 beta 502 Bad Gateway\r\n\r\n"),
          Ev.drain Side.client, Ev.close Side.client], false) ∧
      (handleClient envEchoForward).1.take 2 =
        [Ev.connAttempt (some "example.com") 80,
         Ev.write Side.remote (enc "GET /a HTTP/1.1 v2\r\n")]) :=
  ⟨by decide, request_line_lenient "GET / HTTP/1.1 extra junk" (by decide)⟩

end Proxy
